import Mathlib

/-!
Verification development for the CDBG survey-analysis repository
(hw3_data_cleaning.py, hw3_stretch_goal_cleaning.py, hw3_visualizations.py,
hw3_final_analysis.py).  The Python sources are shallowly embedded:

* spreadsheet cells are `Option String` (`none` models a NaN/blank cell as
  produced by `pandas.read_excel`),
* Python floats are idealised as `PyFloat` (exact rationals plus the `nan`
  absence marker and signed infinity),
* code that can raise returns `Except PyErr`.
-/

/-- A worksheet cell: `none` models a missing value (pandas NaN). -/
abbrev Cell := Option String

/-- A worksheet as a 2-D grid of cells, as read with `header=None`. -/
abbrev Grid := List (List Cell)

/-- Idealised Python float: exact rationals, NaN (the absence marker used by
the cleaning scripts) and signed infinity. -/
inductive PyFloat where
  | fin : ℚ → PyFloat
  | nan : PyFloat
  | inf : Bool → PyFloat
deriving DecidableEq

/-- Python exceptions that the embedded code can raise. -/
inductive PyErr where
  | indexError : PyErr
  | keyError : PyErr
  | valueError : PyErr
deriving DecidableEq

deriving instance DecidableEq for Except

/-! ### String helpers (Python `str` operations on ASCII text) -/

/-- Decimal digit test (`0`-`9`), stated on code points. -/
def isDig (c : Char) : Bool := 48 ≤ c.toNat ∧ c.toNat ≤ 57

/-- Python `str.lower` on one character (ASCII). -/
def lowCh (c : Char) : Char :=
  if 65 ≤ c.toNat ∧ c.toNat ≤ 90 then Char.ofNat (c.toNat + 32) else c

/-- Python `str.upper` on one character (ASCII). -/
def upCh (c : Char) : Char :=
  if 97 ≤ c.toNat ∧ c.toNat ≤ 122 then Char.ofNat (c.toNat - 32) else c

/-- Python `str.lower`. -/
def strLower (s : String) : String := String.mk (s.toList.map lowCh)

/-- Python `str.upper`. -/
def strUpper (s : String) : String := String.mk (s.toList.map upCh)

/-- Drop trailing elements satisfying `p`. -/
def dropTail (p : Char → Bool) (l : List Char) : List Char :=
  (l.reverse.dropWhile p).reverse

/-- Python `str.strip` on a character list. -/
def stripList (l : List Char) : List Char :=
  dropTail Char.isWhitespace (l.dropWhile Char.isWhitespace)

/-- Python `str.strip`. -/
def pyStrip (s : String) : String := String.mk (stripList s.toList)

/-- Python `str.replace(c, "")`: removing every occurrence of one character. -/
def removeChar (c : Char) (s : String) : String :=
  String.mk (s.toList.filter (fun a => a ≠ c))

/-- Substring occurrence test on character lists (`pat` occurs in the text). -/
def listSub (pat : List Char) : List Char → Bool
  | [] => pat.isEmpty
  | t :: ts => pat.isPrefixOf (t :: ts) || listSub pat ts

/-- Python `pat in text` substring test. -/
def strContains (text pat : String) : Bool := listSub pat.toList text.toList

/-- `str()` of a cell value: a NaN cell prints as `"nan"`. -/
def cellStr (c : Cell) : String :=
  match c with
  | none => "nan"
  | some s => s

/-! ### The Python `float()` literal parser -/

/-- Numeric value of a decimal digit character. -/
def digitVal (c : Char) : ℕ := c.toNat - 48

/-- The natural number denoted by a list of decimal digit characters. -/
def digitsToNat (l : List Char) : ℕ :=
  l.foldl (fun a c => 10 * a + digitVal c) 0

/-- Parse an optional exponent suffix (`e`/`E`, optional sign, digits) and
apply it to the mantissa `m`; anything else trailing is a parse error. -/
def parseExp (m : ℚ) : List Char → Option ℚ
  | [] => some m
  | c :: r =>
    if c = 'e' ∨ c = 'E' then
      let sr : Bool × List Char :=
        match r with
        | c2 :: t => if c2 = '+' then (true, t) else if c2 = '-' then (false, t) else (true, r)
        | [] => (true, [])
      let d := sr.2.takeWhile isDig
      if d.isEmpty ∨ ¬(sr.2.dropWhile isDig).isEmpty then none
      else some (if sr.1 then m * (10 : ℚ) ^ digitsToNat d else m / (10 : ℚ) ^ digitsToNat d)
    else none

/-- Parse an unsigned decimal literal `digits [. digits] [exponent]`
(at least one digit before or after the point), as `float()` does. -/
def parseUnsigned (l : List Char) : Option ℚ :=
  let d1 := l.takeWhile isDig
  match l.dropWhile isDig with
  | '.' :: r2 =>
    let d2 := r2.takeWhile isDig
    let r3 := r2.dropWhile isDig
    if d1.isEmpty ∧ d2.isEmpty then none
    else parseExp ((digitsToNat (d1 ++ d2) : ℚ) / (10 : ℚ) ^ d2.length) r3
  | r1 => if d1.isEmpty then none else parseExp (digitsToNat d1) r1

/-- Leading-sign handling of `float()`: consume one `+` or `-`. -/
def splitSign : List Char → Bool × List Char
  | c :: t => if c = '+' then (false, t) else if c = '-' then (true, t) else (false, c :: t)
  | [] => (false, [])

/-- Model of Python `float(s)`: strips whitespace, handles an optional sign,
the special spellings `inf`/`infinity`/`nan` (case-insensitive), and decimal
literals with optional fraction and exponent.  `none` models `ValueError`.
(Underscore digit separators, accepted by CPython, are not modelled; the
cleaning scripts only ever feed it spreadsheet text.) -/
def pyFloat? (s : String) : Option PyFloat :=
  let l0 := stripList s.toList
  let sn := splitSign l0
  let neg := sn.1
  let l1 := sn.2
  let low := l1.map lowCh
  if low = ['i', 'n', 'f'] ∨ low = ['i', 'n', 'f', 'i', 'n', 'i', 't', 'y'] then
    some (.inf (!neg))
  else if low = ['n', 'a', 'n'] then some .nan
  else
    match parseUnsigned l1 with
    | some q => some (.fin (if neg then -q else q))
    | none => none

/-- `to_number` from hw3_data_cleaning.py (an identical copy appears in
hw3_stretch_goal_cleaning.py): if the value is NaN return NaN, otherwise
remove commas and dollar signs, strip, and try `float()`; on failure the
bare `except` returns NaN. -/
def to_number (value : Cell) : PyFloat :=
  match value with
  | none => .nan
  | some v =>
    let s := pyStrip (removeChar '$' (removeChar ',' v))
    match pyFloat? s with
    | some f => f
    | none => .nan


/-! ### hw3_data_cleaning.py -/

namespace HW3Clean

/-- `extract_year`: first match of the regex `(20\d{2})` at a position, as a
year value, or `none` (`np.nan`) if the four characters do not fit. -/
def yearAt : List Char → Option ℕ
  | '2' :: '0' :: a :: b :: _ =>
    if isDig a ∧ isDig b then some (2000 + 10 * digitVal a + digitVal b) else none
  | _ => none

/-- Scan for the leftmost match of `(20\d{2})`. -/
def yearScan : List Char → Option ℕ
  | [] => none
  | c :: rest =>
    match yearAt (c :: rest) with
    | some y => some y
    | none => yearScan rest

/-- `extract_year` from hw3_data_cleaning.py (identical copy in
hw3_stretch_goal_cleaning.py): leftmost `20\d{2}` in the text, else NaN. -/
def extract_year (text : String) : Option ℕ := yearScan text.toList

/-- `classify_app_type` from hw3_data_cleaning.py. -/
def classify_app_type (text : String) : String :=
  let s := strLower (pyStrip text)
  if strContains s "social" || s == "ss" then "Social Services"
  else if strContains s "con" || strContains s "dev" || strContains s "econ" then
    "Construction/Development"
  else if strContains s "admin" || s == "ap" then "Admin"
  else if strContains s "planning" then "Planning"
  else "Other"

/-- `classify_priority` from hw3_data_cleaning.py (2022-2026 script; no
legacy codes). -/
def classify_priority (text : String) : String :=
  let s := strUpper (pyStrip text)
  if s == "NAN" || s == "NONE" || s == "" || s == "ALL" then "Unknown"
  else if strContains s "HOMELESS" || strContains s "ANGHP" then "ANGHP"
  else if strContains s "ECONOMIC" || strContains s "EO" then "EO"
  else if strContains s "NEIGHBORHOOD" || strContains s "NI" then "NI"
  else if strContains s "HOUSING" || strContains s "HA" then "HA"
  else "Other"

/-- `is_summary_row` from hw3_data_cleaning.py (identical copy in
hw3_stretch_goal_cleaning.py): NaN organization, or the regex
`total|subtotal|available|cap|estimated` matching the lowercased text. -/
def is_summary_row (org : Cell) : Bool :=
  match org with
  | none => true
  | some o =>
    let s := strLower o
    strContains s "total" || strContains s "subtotal" || strContains s "available" ||
      strContains s "cap" || strContains s "estimated"

/-- `str()` of a pandas row (as used by the header search): the cell texts
joined by newlines.  (The index labels and dtype suffix that pandas also
prints contain no keyword, so they are omitted.) -/
def rowText (row : List Cell) : String :=
  String.mk (List.foldr (fun c acc => (cellStr c).toList ++ '\n' :: acc) [] row)

/-- One step of `next((i for i in range(20) if "organization" in str(df_temp.iloc[i]).lower()), 8)`:
`fuel` counts the remaining candidates of `range(20)`; reading row `i` of a
sheet with at most `i` rows raises `IndexError`. -/
def searchHeaderAux (grid : Grid) : ℕ → ℕ → Except PyErr ℕ
  | 0, _ => .ok 8
  | fuel + 1, i =>
    match grid.get? i with
    | none => .error .indexError
    | some row =>
      if strContains (strLower (rowText row)) "organization" then .ok i
      else searchHeaderAux grid fuel (i + 1)

/-- Step 1 of `clean_sheet`: 2022/2023 sheets use header row 2, otherwise the
first of the first 20 rows whose text contains "organization" (default 8). -/
def headerRow (sheet_name : String) (grid : Grid) : Except PyErr ℕ :=
  if strContains sheet_name "2022" || strContains sheet_name "2023" then .ok 2
  else searchHeaderAux grid 20 0

/-- The column labels `pd.read_excel` assigns from the header row: a NaN
header cell at position `i` becomes `Unnamed: i`. -/
def headerNames (hrow : List Cell) : List String :=
  (List.range hrow.length).zipWith
    (fun i c =>
      match c with
      | some s => s
      | none => "Unnamed: " ++ toString i)
    hrow

/-- The data rows seen by the extraction loop: everything below the header
row, with completely empty rows removed (`df.dropna(how="all")`). -/
def keptRows (grid : Grid) (header : ℕ) : List (List Cell) :=
  (grid.drop (header + 1)).filter (fun r => !(r.all (fun c => c = none)))

/-- First index whose column label satisfies `p`
(`next((i for i, c in enumerate(cols) if p c), default)` without the default). -/
def firstIdxAux (p : String → Bool) : List String → ℕ → Option ℕ
  | [], _ => none
  | c :: cs, i => if p c then some i else firstIdxAux p cs (i + 1)

/-- `next((i for i, c in enumerate(cols) if p c), d)` with default `d`. -/
def firstIdx (p : String → Bool) (cols : List String) : Option ℕ :=
  firstIdxAux p cols 0

/-- Step 3 of `clean_sheet`: the resolved key-column indices. -/
structure ColIdx where
  ctype : ℕ
  cpriority : ℕ
  corg : ℕ
  cproject : ℕ
  crequest : ℕ
  caward : ℤ
  ctotal : Option ℕ
deriving DecidableEq

/-- Keyword-based column resolution of `clean_sheet` (hw3_data_cleaning.py
lines 110-122), with the documented positional fallbacks 1..5, the last
column as Award, and 12-or-absent for Total_Score. -/
def colIdx (cols : List String) : ColIdx :=
  { ctype := (firstIdx (fun c => strContains (strLower c) "type") cols).getD 1
  , cpriority := (firstIdx (fun c =>
      strContains (strLower c) "priority" && !strContains (strLower c) "impact") cols).getD 2
  , corg := (firstIdx (fun c => strContains (strLower c) "organization") cols).getD 3
  , cproject := (firstIdx (fun c =>
      strContains (strLower c) "project" || strContains (strLower c) "program") cols).getD 4
  , crequest := (firstIdx (fun c => strContains (strLower c) "request") cols).getD 5
  , caward := (cols.length : ℤ) - 1
  , ctotal :=
      match firstIdx (fun c =>
          strContains (strLower c) "avg" && strContains (strLower c) "score") cols with
      | some i => some i
      | none => if cols.length > 12 then some 12 else none }

/-- Step 4 of `clean_sheet`: the scoring-breakdown column indices. -/
structure ScoreIdx where
  sImpact : Option ℕ
  sPrinciples : Option ℕ
  sCapacity : Option ℕ
  sCollab : Option ℕ
deriving DecidableEq

/-- Method 1: name-based scoring-column search; the loop assigns on each
matching column, so a later match overwrites an earlier one. -/
def scoreIdxM1Aux : List String → ℕ → ScoreIdx → ScoreIdx
  | [], _, acc => acc
  | c :: cs, i, acc =>
    let l := strLower c
    let acc2 :=
      if strContains l "priority" && strContains l "impact" then { acc with sImpact := some i }
      else if strContains l "guiding" && strContains l "principle" then
        { acc with sPrinciples := some i }
      else if strContains l "capacity" && strContains l "deliver" then
        { acc with sCapacity := some i }
      else if strContains l "collaboration" || strContains l "partnership" then
        { acc with sCollab := some i }
      else acc
    scoreIdxM1Aux cs (i + 1) acc2

/-- Method 1 over all columns. -/
def scoreIdxM1 (cols : List String) : ScoreIdx :=
  scoreIdxM1Aux cols 0 ⟨none, none, none, none⟩

/-- The `pts_cols` list: indices and labels of columns whose lowercased label
contains "pt". -/
def ptsCols : List String → ℕ → List (ℕ × String)
  | [], _ => []
  | c :: cs, i =>
    if strContains (strLower c) "pt" then (i, c) :: ptsCols cs (i + 1)
    else ptsCols cs (i + 1)

/-- `pts_cols[k][0] if marker in pts_cols[k][1] else None`. -/
def ptsSlot (pts : List (ℕ × String)) (k : ℕ) (marker : String) : Option ℕ :=
  match pts.get? k with
  | some p => if strContains p.2 marker then some p.1 else none
  | none => none

/-- Steps 4's two methods combined: for 2022/2023 sheets with at least four
"pt" columns, the point-value method overwrites Method 1 wholesale. -/
def scoreIdx (sheet_name : String) (cols : List String) : ScoreIdx :=
  let m1 := scoreIdxM1 cols
  if strContains sheet_name "2022" || strContains sheet_name "2023" then
    let pts := ptsCols cols 0
    if pts.length ≥ 4 then
      { sImpact := ptsSlot pts 0 "30"
      , sPrinciples := ptsSlot pts 1 "30"
      , sCapacity := ptsSlot pts 2 "25"
      , sCollab := ptsSlot pts 3 "15" }
    else m1
  else m1

/-- `row.iloc[i]` on a pandas row: Python indexing with negative indices
counting from the end; out of range raises `IndexError`. -/
def iloc (row : List Cell) (i : ℤ) : Except PyErr Cell :=
  let n : ℤ := row.length
  let j := if i < 0 then i + n else i
  if 0 ≤ j ∧ j < n then .ok (row.getD j.toNat none) else .error .indexError

/-- Truthiness of `col_idx["Total_Score"]` in
`to_number(...) if col_idx["Total_Score"] else np.nan`: `None` and `0` are
both falsy in Python. -/
def optTruthy : Option ℕ → Bool
  | none => false
  | some n => n ≠ 0

/-- `to_number(row.iloc[idx]) if idx is not None else np.nan` for a
scoring-breakdown column. -/
def scoreField (idx : Option ℕ) (row : List Cell) : Except PyErr PyFloat :=
  match idx with
  | some i => (iloc row (i : ℤ)).map to_number
  | none => .ok .nan

/-- One record of the extraction loop, before the classification columns are
added. -/
structure RawRecord where
  year : Option ℕ
  organization : String
  project : Cell
  rtype : Cell
  rpriority : Cell
  funding_request : PyFloat
  funding_award : PyFloat
  total_score : PyFloat
  score_impact : PyFloat
  score_principles : PyFloat
  score_capacity : PyFloat
  score_collab : PyFloat
deriving DecidableEq

/-- A normalized output record (`RawRecord` plus the two derived columns). -/
structure Record where
  year : Option ℕ
  organization : String
  project : Cell
  rtype : Cell
  rpriority : Cell
  funding_request : PyFloat
  funding_award : PyFloat
  total_score : PyFloat
  score_impact : PyFloat
  score_principles : PyFloat
  score_capacity : PyFloat
  score_collab : PyFloat
  app_type : String
  priority_category : String
deriving DecidableEq

/-- Step 5's loop body for one row: fetch the organization cell, skip
summary rows, otherwise build the record field by field in the evaluation
order of the Python dict literal (any out-of-range `iloc` raises). -/
def extractRecord (year : Option ℕ) (ci : ColIdx) (si : ScoreIdx) (row : List Cell) :
    Except PyErr (Option RawRecord) :=
  match iloc row (ci.corg : ℤ) with
  | .error e => .error e
  | .ok org =>
    if is_summary_row org then .ok none
    else
      match iloc row (ci.cproject : ℤ) with
      | .error e => .error e
      | .ok proj =>
        match iloc row (ci.ctype : ℤ) with
        | .error e => .error e
        | .ok ty =>
          match iloc row (ci.cpriority : ℤ) with
          | .error e => .error e
          | .ok pri =>
            match iloc row (ci.crequest : ℤ) with
            | .error e => .error e
            | .ok req =>
              match iloc row ci.caward with
              | .error e => .error e
              | .ok awd =>
                match
                  (if optTruthy ci.ctotal then
                    (iloc row ((ci.ctotal.getD 0 : ℕ) : ℤ)).map to_number
                  else .ok .nan) with
                | .error e => .error e
                | .ok tot =>
                  match scoreField si.sImpact row with
                  | .error e => .error e
                  | .ok imp =>
                    match scoreField si.sPrinciples row with
                    | .error e => .error e
                    | .ok prn =>
                      match scoreField si.sCapacity row with
                      | .error e => .error e
                      | .ok cap_ =>
                        match scoreField si.sCollab row with
                        | .error e => .error e
                        | .ok col =>
                          .ok (some
                            { year := year
                            , organization := pyStrip (cellStr org)
                            , project := proj
                            , rtype := ty
                            , rpriority := pri
                            , funding_request := to_number req
                            , funding_award := to_number awd
                            , total_score := tot
                            , score_impact := imp
                            , score_principles := prn
                            , score_capacity := cap_
                            , score_collab := col })

/-- Step 5's loop over all data rows. -/
def extractAll (year : Option ℕ) (ci : ColIdx) (si : ScoreIdx) :
    List (List Cell) → Except PyErr (List RawRecord)
  | [] => .ok []
  | r :: rs =>
    match extractRecord year ci si r with
    | .error e => .error e
    | .ok out =>
      match extractAll year ci si rs with
      | .error e => .error e
      | .ok rest =>
        match out with
        | some rec => .ok (rec :: rest)
        | none => .ok rest

/-- Step 6: `pd.DataFrame(records)` followed by the two `apply` columns.
On an empty record list the frame has no columns and `result["Type"]`
raises `KeyError`. -/
def finalize (raws : List RawRecord) : Except PyErr (List Record) :=
  if raws.isEmpty then .error .keyError
  else .ok (raws.map (fun raw =>
    { year := raw.year
    , organization := raw.organization
    , project := raw.project
    , rtype := raw.rtype
    , rpriority := raw.rpriority
    , funding_request := raw.funding_request
    , funding_award := raw.funding_award
    , total_score := raw.total_score
    , score_impact := raw.score_impact
    , score_principles := raw.score_principles
    , score_capacity := raw.score_capacity
    , score_collab := raw.score_collab
    , app_type := classify_app_type (cellStr raw.rtype)
    , priority_category := classify_priority (cellStr raw.rpriority) }))

/-- `clean_sheet` from hw3_data_cleaning.py: header-row location, reading
with that header (reading past the end of the sheet fails), keyword column
resolution, scoring-column resolution, the extraction loop, and the
classification columns. -/
def clean_sheet (sheet_name : String) (grid : Grid) : Except PyErr (List Record) :=
  match headerRow sheet_name grid with
  | .error e => .error e
  | .ok header =>
    match grid.get? header with
    | none => .error .valueError
    | some hrow =>
      let cols := headerNames hrow
      let year := extract_year sheet_name
      let ci := colIdx cols
      let si := scoreIdx sheet_name cols
      match extractAll year ci si (keptRows grid header) with
      | .error e => .error e
      | .ok raws => finalize raws

/-- The filter in `main` (hw3_data_cleaning.py lines 223-225; the identical
filter appears in hw3_stretch_goal_cleaning.py lines 162-164): keep only the
Social Services and Construction/Development records before writing the
normalized CSV. -/
def mainFilter (combined : List Record) : List Record :=
  combined.filter (fun r =>
    ["Social Services", "Construction/Development"].contains r.app_type)

/-- `main`: concatenate the per-sheet record lists, then filter. -/
def mainRecords (perSheet : List (List Record)) : List Record :=
  mainFilter perSheet.flatten

end HW3Clean

/-! ### hw3_stretch_goal_cleaning.py -/

namespace HW3Stretch

/-- `classify_app_type` from hw3_stretch_goal_cleaning.py (three-way
version without the Admin/Planning branches). -/
def classify_app_type (text : String) : String :=
  let s := strLower (pyStrip text)
  if strContains s "social" || s == "ss" then "Social Services"
  else if strContains s "con" || strContains s "dev" || strContains s "econ" then
    "Construction/Development"
  else "Other"

/-- `classify_priority` from hw3_stretch_goal_cleaning.py: the modern codes
followed by the legacy codes BN, SN, WS. -/
def classify_priority (text : String) : String :=
  let s := strUpper (pyStrip text)
  if s == "NAN" || s == "NONE" || s == "" || s == "ALL" then "Unknown"
  else if strContains s "HOMELESS" || strContains s "ANGHP" then "ANGHP"
  else if strContains s "ECONOMIC" || strContains s "EO" then "EO"
  else if strContains s "NEIGHBORHOOD" || strContains s "NI" then "NI"
  else if strContains s "HOUSING" || strContains s "HA" then "HA"
  else if strContains s "BN" then "BN"
  else if strContains s "SN" then "SN"
  else if strContains s "WS" then "WS"
  else "Other"

end HW3Stretch

/-! ### hw3_visualizations.py: the per-organization aggregate -/

namespace HW3Viz

/-- `pd.notna` on an embedded float: everything except NaN is present. -/
def pfNotNA : PyFloat → Bool
  | .nan => false
  | _ => true

/-- Integer division as pandas/numpy perform it when a Series of counts is
divided: `0 / 0` is NaN, `k / 0` for `k > 0` is infinity. -/
def pdDivNat (a b : ℕ) : PyFloat :=
  if b = 0 then (if a = 0 then .nan else .inf true) else .fin ((a : ℚ) / (b : ℚ))

/-- `* 100` on the resulting Series. -/
def pfScale100 : PyFloat → PyFloat
  | .fin q => .fin (q * 100)
  | .nan => .nan
  | .inf b => .inf b

/-- `.round(1)` on the resulting Series (NaN and infinity pass through). -/
def pfRound1 : PyFloat → PyFloat
  | .fin q => .fin ((round (q * 10) : ℚ) / 10)
  | .nan => .nan
  | .inf b => .inf b

/-- One aggregate row of `org_stats` (hw3_visualizations.py lines 154-160)
for a single organization's records: total applications
(`agg({'Year': 'count'})`, the pandas count of non-NaN Year values in the
group), funded applications (`Funding_Award` not-NA count), and the funding
rate `Funded_Apps / Total_Apps * 100`, rounded to one decimal. -/
structure OrgStat where
  total_apps : ℕ
  funded_apps : ℕ
  funding_rate : PyFloat
deriving DecidableEq

/-- The aggregate for one organization's group of records.  Pandas'
`'count'` aggregation counts the non-missing Year values, not the group
size, so a record whose Year is NaN is not counted as submitted. -/
def orgStatsEntry (rows : List HW3Clean.Record) : OrgStat :=
  let total := rows.countP (fun r => r.year.isSome)
  let funded := rows.countP (fun r => pfNotNA r.funding_award)
  { total_apps := total
  , funded_apps := funded
  , funding_rate := pfRound1 (pfScale100 (pdDivNat funded total)) }

/-- The distinct organization names of a table, in first-appearance order
(the group keys of `df.groupby('Organization')`). -/
def orgKeys (df : List HW3Clean.Record) : List String :=
  (df.map (fun r => r.organization)).dedup

/-- `org_stats`: one aggregate row per organization.  (The source then
sorts by `Total_Apps` and keeps the top 15 before computing the rate
column; ordering and truncation do not change any entry's fields.) -/
def org_stats (df : List HW3Clean.Record) : List (String × OrgStat) :=
  (orgKeys df).map (fun o => (o, orgStatsEntry (df.filter (fun r => r.organization = o))))

end HW3Viz

/-! ### Further definitions used by the claim theorems -/

namespace HW3Clean

/-- All scoring-column indices of `si` lie below `n`. -/
abbrev ScoreIdx.bound (si : ScoreIdx) (n : ℕ) : Prop :=
  (∀ j, si.sImpact = some j → j < n) ∧ (∀ j, si.sPrinciples = some j → j < n) ∧
  (∀ j, si.sCapacity = some j → j < n) ∧ (∀ j, si.sCollab = some j → j < n)

/-- The well-formedness test under which `clean_sheet` is total: the header
row is determined without error and exists in the grid, the retained data
rows all have exactly the header's number of columns with at least 6 of
them, and at least one retained data row is a real (non-summary) record. -/
def gridOK (name : String) (grid : Grid) : Bool :=
  match headerRow name grid with
  | .error _ => false
  | .ok h =>
    match grid.get? h with
    | none => false
    | some hrow =>
      let cols := headerNames hrow
      let ci := colIdx cols
      let rows := keptRows grid h
      decide (6 ≤ cols.length) &&
      rows.all (fun r => r.length == cols.length) &&
      rows.any (fun r => !is_summary_row (r.getD ci.corg none))

end HW3Clean

/-- Decimal digit string of `n`, with explicit recursion fuel so that it
evaluates by reduction. -/
def natToDigitsAux : ℕ → ℕ → List Char
  | 0, _ => []
  | fuel + 1, n =>
    if n < 10 then [Char.ofNat (48 + n)]
    else natToDigitsAux fuel (n / 10) ++ [Char.ofNat (48 + n % 10)]

/-- The standard decimal digit string of a natural number. -/
def natToDigits (n : ℕ) : List Char := natToDigitsAux (n + 1) n

/-- The fixed ordered rule list of the priority classifier as the
specification describes it (modern codes ANGHP, EO, NI, HA, then legacy
codes BN, SN, WS), with the keyword set of each code. -/
def priorityRules : List (List String × String) :=
  [(["HOMELESS", "ANGHP"], "ANGHP"), (["ECONOMIC", "EO"], "EO"),
   (["NEIGHBORHOOD", "NI"], "NI"), (["HOUSING", "HA"], "HA"),
   (["BN"], "BN"), (["SN"], "SN"), (["WS"], "WS")]

/-- First-match-wins evaluation of the rule list; no match gives Other. -/
def firstRuleMatch (s : String) : List (List String × String) → String
  | [] => "Other"
  | r :: rest => if r.1.any (fun k => strContains s k) then r.2 else firstRuleMatch s rest

/-- The priority classifier exactly as the specification sentence of C7
states it: normalize to uppercase, map the placeholder values "NONE", "",
"ALL" to Unknown, otherwise apply the ordered substring rules with first
match winning, and return Other when no rule matches. -/
def claimPriority (text : String) : String :=
  let s := strUpper (pyStrip text)
  if s == "NONE" || s == "" || s == "ALL" then "Unknown"
  else firstRuleMatch s priorityRules

/-- The C7 description amended minimally: the placeholder list mapped to
Unknown also contains "NAN" (the `str()` image of a NaN cell). -/
def claimPriorityAmended (text : String) : String :=
  let s := strUpper (pyStrip text)
  if s == "NAN" || s == "NONE" || s == "" || s == "ALL" then "Unknown"
  else firstRuleMatch s priorityRules

/-- The worksheet of end-to-end scenario A (claim C3): two banner rows, the
header row at index 2, and one data row. -/
def gridA : Grid :=
  [ [some "CDBG Applications", none, none, none, none, none, none]
  , [none, none, none, none, none, none, none]
  , [some "Type", some "Priority", some "Organization", some "Project",
     some "Request", some "Score", some "Award"]
  , [some "SS", some "Housing Assistance", some "Acme Corp", some "Shelter Build",
     some "$12,500", some "88", some "$10,000"] ]

/-- The record that `clean_sheet` actually produces on `gridA` for the
sheet name "2022-23": as the spec's scenario demands except that
`Total_Score` is the absence marker, because no header contains "avg". -/
def recA : HW3Clean.Record :=
  { year := some 2022
  , organization := "Acme Corp"
  , project := some "Shelter Build"
  , rtype := some "SS"
  , rpriority := some "Housing Assistance"
  , funding_request := .fin 12500
  , funding_award := .fin 10000
  , total_score := .nan
  , score_impact := .nan
  , score_principles := .nan
  , score_capacity := .nan
  , score_collab := .nan
  , app_type := "Social Services"
  , priority_category := "HA" }

/-- The header list of the C10 witness: a "Avg Score" column sits at
index 0, so the keyword search resolves Total_Score to index 0. -/
def cols10 : List String :=
  ["Avg Score", "Type", "Priority", "Organization", "Project", "Request", "Award"]

/-- The data row of the C10 witness: column 0 holds the score 77, which the
code nevertheless drops. -/
def row10 : List Cell :=
  [some "77", some "SS", some "HA", some "Org", some "P", some "$5", some "$5"]

/-- The record the extraction loop produces on `row10`. -/
def rec10 : HW3Clean.RawRecord :=
  { year := some 2024
  , organization := "Org"
  , project := some "P"
  , rtype := some "SS"
  , rpriority := some "HA"
  , funding_request := .fin 5
  , funding_award := .fin 5
  , total_score := .nan
  , score_impact := .nan
  , score_principles := .nan
  , score_capacity := .nan
  , score_collab := .nan }

/-- Header labels shared by the small witness worksheets. -/
def cols5 : List String :=
  ["Type", "Priority", "Organization", "Project", "Request", "Score", "Award"]

/-- Two data rows: a summary row ("Total") and a real application row. -/
def rows5 : List (List Cell) :=
  [ [some "SS", some "HA", some "Total", some "P", some "$5", some "1", some "$5"]
  , [some "SS", some "HA", some "Acme", some "P", some "$5", some "1", some "$5"] ]

/-- The single record extracted from `rows5`. -/
def rec5 : HW3Clean.RawRecord :=
  { year := some 2024
  , organization := "Acme"
  , project := some "P"
  , rtype := some "SS"
  , rpriority := some "HA"
  , funding_request := .fin 5
  , funding_award := .fin 5
  , total_score := .nan
  , score_impact := .nan
  , score_principles := .nan
  , score_capacity := .nan
  , score_collab := .nan }

/-- The worksheet of the C5 counterexample: the organization cell of the
data row holds the empty string (a present cell with empty text). -/
def gridE : Grid :=
  [ [some "Type", some "Priority", some "Organization", some "Project",
     some "Request", some "Score", some "Award"]
  , [some "SS", some "HA", some "", some "P", some "$5", some "1", some "$5"] ]

/-- The record `clean_sheet` produces on `gridE`: the empty-organization
row is retained. -/
def recE : HW3Clean.Record :=
  { year := some 2024
  , organization := ""
  , project := some "P"
  , rtype := some "SS"
  , rpriority := some "HA"
  , funding_request := .fin 5
  , funding_award := .fin 5
  , total_score := .nan
  , score_impact := .nan
  , score_principles := .nan
  , score_capacity := .nan
  , score_collab := .nan
  , app_type := "Social Services"
  , priority_category := "HA" }

/-- The worksheet of the C4 counterexample: a whitespace-only organization
cell and a sheet name carrying the year 2030. -/
def gridY : Grid :=
  [ [some "Type", some "Priority", some "Organization", some "Project",
     some "Request", some "Score", some "Award"]
  , [some "SS", some "HA", some " ", some "P", some "$5", some "1", some "$5"] ]

/-- The record `clean_sheet` produces on `gridY`. -/
def recY : HW3Clean.Record :=
  { year := some 2030
  , organization := ""
  , project := some "P"
  , rtype := some "SS"
  , rpriority := some "HA"
  , funding_request := .fin 5
  , funding_award := .fin 5
  , total_score := .nan
  , score_impact := .nan
  , score_principles := .nan
  , score_capacity := .nan
  , score_collab := .nan
  , app_type := "Social Services"
  , priority_category := "HA" }

/-- A record with a missing Year but a present award: `extract_year` gives
NaN for a sheet name without a `20\d{2}` match, so such records are
reachable, and pandas' Year count does not include them. -/
def rec8 : HW3Clean.Record :=
  { year := none
  , organization := "Acme"
  , project := none
  , rtype := some "SS"
  , rpriority := none
  , funding_request := .nan
  , funding_award := .fin 5
  , total_score := .nan
  , score_impact := .nan
  , score_principles := .nan
  , score_capacity := .nan
  , score_collab := .nan
  , app_type := "Social Services"
  , priority_category := "Unknown" }


/-! ### Enumerations from the data model (spec §3) -/

/-- The `AppType` enumeration of the specification. -/
def appTypeCats : List String :=
  ["Social Services", "Construction/Development", "Admin", "Planning", "Other"]

/-- The `PriorityCategory` enumeration of the specification. -/
def priorityCats : List String :=
  ["ANGHP", "EO", "NI", "HA", "BN", "SN", "WS", "Unknown", "Other"]

example : to_number (some "$12,500") = .fin 12500 := by decide
example : to_number (some "$10,000") = .fin 10000 := by decide
example : to_number (some "88") = .fin 88 := by decide
example : to_number (some "") = .nan := by decide
example : to_number (some "abc") = .nan := by decide
example : to_number none = .nan := by decide
example : to_number (some " 1,234.56 ") = .fin (123456 / 100) := by rfl

lemma classify_app_type_mem (s : String) : HW3Clean.classify_app_type s ∈ appTypeCats := by
  unfold HW3Clean.classify_app_type
  dsimp only
  split_ifs <;> simp [appTypeCats]

lemma classify_priority_mem (s : String) : HW3Clean.classify_priority s ∈ priorityCats := by
  unfold HW3Clean.classify_priority
  dsimp only
  split_ifs <;> simp [priorityCats]

lemma stretch_classify_app_type_mem (s : String) :
    HW3Stretch.classify_app_type s ∈ appTypeCats := by
  unfold HW3Stretch.classify_app_type
  dsimp only
  split_ifs <;> simp [appTypeCats]

lemma stretch_classify_priority_mem (s : String) :
    HW3Stretch.classify_priority s ∈ priorityCats := by
  unfold HW3Stretch.classify_priority
  dsimp only
  split_ifs <;> simp [priorityCats]

/-- C6: the app-type and priority classifiers (in both cleaning scripts) are
total, deterministic, side-effect-free functions: each is a pure Lean
function (so totality, determinism and freedom from effects hold by
construction), and for every input string each returns a category belonging
to its fixed enumeration. -/
theorem c6_classifiers_total (s : String) :
    HW3Clean.classify_app_type s ∈ appTypeCats ∧
    HW3Clean.classify_priority s ∈ priorityCats ∧
    HW3Stretch.classify_app_type s ∈ appTypeCats ∧
    HW3Stretch.classify_priority s ∈ priorityCats :=
  ⟨classify_app_type_mem s, classify_priority_mem s,
   stretch_classify_app_type_mem s, stretch_classify_priority_mem s⟩

/-- C9: every record surviving `main`'s filter has `App_Type` equal to
"Social Services" or "Construction/Development"; records classified Admin,
Planning or Other are never written to the intermediate file. -/
theorem c9_main_filter_app_types (perSheet : List (List HW3Clean.Record)) :
    (∀ r ∈ HW3Clean.mainRecords perSheet,
      r.app_type = "Social Services" ∨ r.app_type = "Construction/Development") ∧
    (∀ r, r.app_type ∈ (["Admin", "Planning", "Other"] : List String) →
      r ∉ HW3Clean.mainRecords perSheet) := by
  constructor
  · intro r hr
    unfold HW3Clean.mainRecords HW3Clean.mainFilter at hr
    rw [List.mem_filter] at hr
    have h := hr.2
    simpa using h
  · intro r hmem hr
    unfold HW3Clean.mainRecords HW3Clean.mainFilter at hr
    rw [List.mem_filter] at hr
    have h := hr.2
    simp at h hmem
    rcases hmem with h1 | h1 | h1 <;> rcases h with h2 | h2 <;> rw [h1] at h2 <;> simp at h2

/-- Witness for C9 at a concrete record list. -/
theorem c9_main_filter_app_types_witness :
    ({ year := some 2022, organization := "Acme Corp", project := none, rtype := some "SS"
     , rpriority := none, funding_request := .nan, funding_award := .nan, total_score := .nan
     , score_impact := .nan, score_principles := .nan, score_capacity := .nan
     , score_collab := .nan, app_type := "Social Services"
     , priority_category := "HA" } : HW3Clean.Record).app_type = "Social Services" ∨
    ({ year := some 2022, organization := "Acme Corp", project := none, rtype := some "SS"
     , rpriority := none, funding_request := .nan, funding_award := .nan, total_score := .nan
     , score_impact := .nan, score_principles := .nan, score_capacity := .nan
     , score_collab := .nan, app_type := "Social Services"
     , priority_category := "HA" } : HW3Clean.Record).app_type =
      "Construction/Development" :=
  (c9_main_filter_app_types
    [[{ year := some 2022, organization := "Acme Corp", project := none, rtype := some "SS"
      , rpriority := none, funding_request := .nan, funding_award := .nan, total_score := .nan
      , score_impact := .nan, score_principles := .nan, score_capacity := .nan
      , score_collab := .nan, app_type := "Social Services"
      , priority_category := "HA" }]]).1 _ (by decide)

/-- Counterexample to C8 as stated: a group holding one record with a
missing Year but a present award has a submitted count
(`agg({'Year': 'count'})`) of zero yet a funded count of one, and pandas
evaluates `1 / 0` to +infinity, so the funding rate is a value - positive
infinity - and not the absence marker. -/
theorem c8_counterexample :
    (HW3Viz.orgStatsEntry [rec8]).total_apps = 0 ∧
    (HW3Viz.orgStatsEntry [rec8]).funded_apps = 1 ∧
    (HW3Viz.orgStatsEntry [rec8]).funding_rate = .inf true ∧
    (HW3Viz.orgStatsEntry [rec8]).funding_rate ≠ .nan := by decide

/-- C8 amended: in the per-organization aggregate of the reporting stage,
when the submitted count (the pandas count of non-missing Year values in
the group) is zero, the funding rate is the absence marker NaN exactly when
the funded count is also zero (`0 / 0` is NaN); when the funded count is
positive - records with a missing Year but a present award - pandas'
`k / 0` yields +infinity, a value, not the absence marker. -/
theorem c8_funding_rate_zero_denominator (rows : List HW3Clean.Record) :
    ((HW3Viz.orgStatsEntry rows).total_apps = 0 →
      (HW3Viz.orgStatsEntry rows).funded_apps = 0 →
      (HW3Viz.orgStatsEntry rows).funding_rate = .nan) ∧
    ((HW3Viz.orgStatsEntry rows).total_apps = 0 →
      0 < (HW3Viz.orgStatsEntry rows).funded_apps →
      (HW3Viz.orgStatsEntry rows).funding_rate = .inf true) := by
  constructor
  · intro h0 h1
    unfold HW3Viz.orgStatsEntry at h0 h1 ⊢
    dsimp only at h0 h1 ⊢
    rw [h0, h1]
    rfl
  · intro h0 h1
    unfold HW3Viz.orgStatsEntry at h0 h1 ⊢
    dsimp only at h0 h1 ⊢
    rw [h0]
    unfold HW3Viz.pdDivNat
    rw [if_pos rfl, if_neg (by omega)]
    rfl

/-- Witness for C8: the empty group has rate NaN, and the group of one
missing-Year funded record has rate +infinity. -/
theorem c8_funding_rate_zero_denominator_witness :
    (HW3Viz.orgStatsEntry []).funding_rate = .nan ∧
    (HW3Viz.orgStatsEntry [rec8]).funding_rate = .inf true :=
  ⟨(c8_funding_rate_zero_denominator []).1 (by decide) (by decide),
   (c8_funding_rate_zero_denominator [rec8]).2 (by decide) (by decide)⟩

/-! ### Lemmas about the numeric parser -/

lemma takeWhile_eq_self_of {p : Char → Bool} {l : List Char} (h : ∀ c ∈ l, p c = true) :
    l.takeWhile p = l := by
  induction l with
  | nil => rfl
  | cons c cs ih =>
    simp [List.takeWhile_cons, h c (List.mem_cons_self c cs),
      ih (fun x hx => h x (List.mem_cons_of_mem c hx))]

lemma dropWhile_eq_nil_of {p : Char → Bool} {l : List Char} (h : ∀ c ∈ l, p c = true) :
    l.dropWhile p = [] := by
  induction l with
  | nil => rfl
  | cons c cs ih =>
    simp [List.dropWhile_cons, h c (List.mem_cons_self c cs),
      ih (fun x hx => h x (List.mem_cons_of_mem c hx))]

lemma dropWhile_eq_self_of_not {p : Char → Bool} {l : List Char} (h : ∀ c ∈ l, p c = false) :
    l.dropWhile p = l := by
  cases l with
  | nil => rfl
  | cons c cs => simp [List.dropWhile_cons, h c (List.mem_cons_self c cs)]

lemma stripList_eq_self {l : List Char} (h : ∀ c ∈ l, c.isWhitespace = false) :
    stripList l = l := by
  unfold stripList dropTail
  rw [dropWhile_eq_self_of_not h,
    dropWhile_eq_self_of_not (fun c hc => h c (List.mem_reverse.mp hc)),
    List.reverse_reverse]

lemma isDig_not_ws {c : Char} (h : isDig c = true) : c.isWhitespace = false := by
  by_contra hw
  rw [Bool.not_eq_false] at hw
  simp only [Char.isWhitespace, Bool.or_eq_true, decide_eq_true_eq] at hw
  rcases hw with ((h1 | h1) | h1) | h1 <;> subst h1 <;> exact absurd h (by decide)

lemma isDig_ne {c : Char} (h : isDig c = true) (a : Char) (ha : isDig a = false) : c ≠ a := by
  intro he
  rw [he] at h
  simp [h] at ha

lemma lowCh_isDig {c : Char} (h : isDig c = true) : lowCh c = c := by
  simp only [isDig, decide_eq_true_eq] at h
  unfold lowCh
  rw [if_neg (by omega)]

lemma map_lowCh_digits {ds : List Char} (hd : ∀ c ∈ ds, isDig c = true) :
    ds.map lowCh = ds := by
  induction ds with
  | nil => rfl
  | cons c cs ih =>
    simp [lowCh_isDig (hd c (List.mem_cons_self c cs)),
      ih (fun x hx => hd x (List.mem_cons_of_mem c hx))]

lemma filter_ne_comma_eq_filter_isDig {l : List Char}
    (hl : ∀ c ∈ l, isDig c = true ∨ c = ',') :
    l.filter (fun a => a ≠ ',') = l.filter isDig := by
  induction l with
  | nil => rfl
  | cons c cs ih =>
    have ih' := ih (fun x hx => hl x (List.mem_cons_of_mem c hx))
    rcases hl c (List.mem_cons_self c cs) with hd | hcm
    · rw [List.filter_cons_of_pos (by simp [isDig_ne hd ',' (by decide)]),
        List.filter_cons_of_pos hd, ih']
    · subst hcm
      rw [List.filter_cons_of_neg (by simp), List.filter_cons_of_neg (by decide), ih']

lemma splitSign_digits {d : Char} {t : List Char} (hd0 : isDig d = true) :
    splitSign (d :: t) = (false, d :: t) := by
  simp only [splitSign]
  rw [if_neg (isDig_ne hd0 '+' (by decide)), if_neg (isDig_ne hd0 '-' (by decide))]

lemma pyFloat?_digits {ds : List Char} (hd : ∀ c ∈ ds, isDig c = true) (hne : ds ≠ []) :
    pyFloat? (String.mk ds) = some (.fin (digitsToNat ds)) := by
  obtain ⟨d, t, rfl⟩ := List.exists_cons_of_ne_nil hne
  have hd0 := hd d (List.mem_cons_self d t)
  have hstrip : stripList (String.toList (String.mk (d :: t))) = d :: t :=
    stripList_eq_self (fun c hc => isDig_not_ws (hd c hc))
  unfold pyFloat?
  dsimp only
  rw [hstrip, splitSign_digits hd0]
  dsimp only
  rw [map_lowCh_digits hd]
  rw [if_neg ?notinf]
  case notinf =>
    rintro (he | he) <;>
      exact absurd hd0 (by rw [List.cons.injEq] at he; rw [he.1]; decide)
  rw [if_neg ?notnan]
  case notnan =>
    intro he
    exact absurd hd0 (by rw [List.cons.injEq] at he; rw [he.1]; decide)
  unfold parseUnsigned
  dsimp only
  rw [takeWhile_eq_self_of hd, dropWhile_eq_nil_of hd]
  rfl

/-- The cleaned text of a currency string: commas and dollar signs removed,
nothing left to strip, leaving the digit list. -/
lemma clean_currency {l : List Char} (hl : ∀ c ∈ l, isDig c = true ∨ c = ',') :
    pyStrip (removeChar '$' (removeChar ',' (String.mk ('$' :: l)))) =
      String.mk (l.filter isDig) := by
  have hdsd : ∀ c ∈ l.filter isDig, isDig c = true := fun c hc => (List.mem_filter.mp hc).2
  unfold removeChar pyStrip
  rw [show String.toList (String.mk ('$' :: l)) = '$' :: l from rfl]
  rw [List.filter_cons_of_pos (by decide)]
  rw [filter_ne_comma_eq_filter_isDig hl]
  rw [show String.toList (String.mk ('$' :: l.filter isDig)) = '$' :: l.filter isDig from rfl]
  rw [List.filter_cons_of_neg (by decide)]
  rw [List.filter_eq_self.mpr (fun a ha => by
    simp only [decide_eq_true_eq]
    exact isDig_ne (hdsd a ha) '$' (by decide))]
  rw [show String.toList (String.mk (l.filter isDig)) = l.filter isDig from rfl]
  rw [stripList_eq_self (fun c hc => isDig_not_ws (hdsd c hc))]

lemma to_number_currency {l : List Char}
    (hl : ∀ c ∈ l, isDig c = true ∨ c = ',') (hne : ∃ c ∈ l, isDig c = true) :
    to_number (some (String.mk ('$' :: l))) = .fin (digitsToNat (l.filter isDig)) := by
  have hfne : l.filter isDig ≠ [] := by
    obtain ⟨c, hc, hcd⟩ := hne
    exact List.ne_nil_of_mem (List.mem_filter.mpr ⟨hc, hcd⟩)
  unfold to_number
  dsimp only
  rw [clean_currency hl,
    pyFloat?_digits (fun c hc => (List.mem_filter.mp hc).2) hfne]


lemma digitChar_isDig {m : ℕ} (hm : m < 10) : isDig (Char.ofNat (48 + m)) = true := by
  interval_cases m <;> decide

lemma digitVal_digitChar {m : ℕ} (hm : m < 10) : digitVal (Char.ofNat (48 + m)) = m := by
  interval_cases m <;> decide

lemma digitsToNat_append_digit (l : List Char) (c : Char) :
    digitsToNat (l ++ [c]) = 10 * digitsToNat l + digitVal c := by
  unfold digitsToNat
  rw [List.foldl_append]
  rfl

lemma digitsToNat_natToDigitsAux {fuel n : ℕ} (h : n < 10 ^ fuel) :
    digitsToNat (natToDigitsAux fuel n) = n := by
  induction fuel generalizing n with
  | zero => simp at h; simp [h, natToDigitsAux, digitsToNat]
  | succ fuel ih =>
    unfold natToDigitsAux
    split_ifs with h10
    · simp [digitsToNat, digitVal_digitChar h10]
    · rw [digitsToNat_append_digit,
        ih (Nat.div_lt_of_lt_mul (by rw [pow_succ] at h; omega)),
        digitVal_digitChar (Nat.mod_lt n (by omega))]
      omega

lemma digitsToNat_natToDigits (n : ℕ) : digitsToNat (natToDigits n) = n :=
  digitsToNat_natToDigitsAux
    (lt_of_lt_of_le (Nat.lt_pow_self (by omega) n)
      (Nat.pow_le_pow_right (by omega) (by omega)))

lemma natToDigitsAux_digits {fuel n : ℕ} : ∀ c ∈ natToDigitsAux fuel n, isDig c = true := by
  induction fuel generalizing n with
  | zero => intro c hc; simp [natToDigitsAux] at hc
  | succ fuel ih =>
    intro c hc
    unfold natToDigitsAux at hc
    split_ifs at hc with h10
    · rw [List.mem_singleton] at hc
      subst hc
      exact digitChar_isDig h10
    · rw [List.mem_append] at hc
      rcases hc with hc | hc
      · exact ih c hc
      · rw [List.mem_singleton] at hc
        subst hc
        exact digitChar_isDig (Nat.mod_lt n (by omega))

lemma natToDigits_ne_nil (n : ℕ) : natToDigits n ≠ [] := by
  unfold natToDigits natToDigitsAux
  split_ifs <;> simp

/-- C2: `to_number` returns the correct decimal value on currency-formatted
strings (a leading dollar sign, digits, thousands separators), and returns
the absence marker NaN - never zero and never an exception - on null, empty
or non-numeric input.  The non-numeric case is characterised by the
`float()` model failing on the cleaned text. -/
theorem c2_to_number_currency_and_absence :
    (∀ l : List Char, (∀ c ∈ l, isDig c = true ∨ c = ',') → (∃ c ∈ l, isDig c = true) →
        to_number (some (String.mk ('$' :: l))) = .fin (digitsToNat (l.filter isDig))) ∧
    (∀ n : ℕ, ∀ l : List Char, l.filter isDig = natToDigits n →
        (∀ c ∈ l, isDig c = true ∨ c = ',') →
        to_number (some (String.mk ('$' :: l))) = .fin n) ∧
    to_number none = .nan ∧
    to_number (some "") = .nan ∧
    (∀ s : String, pyFloat? (pyStrip (removeChar '$' (removeChar ',' s))) = none →
        to_number (some s) = .nan ∧ to_number (some s) ≠ .fin 0) := by
  refine ⟨fun l hl hne => to_number_currency hl hne, ?_, by decide, by decide, ?_⟩
  · intro n l hf hl
    have hne : ∃ c ∈ l, isDig c = true := by
      have h0 : l.filter isDig ≠ [] := by rw [hf]; exact natToDigits_ne_nil n
      obtain ⟨c, t, he⟩ := List.exists_cons_of_ne_nil h0
      have hm : c ∈ l.filter isDig := by rw [he]; exact List.mem_cons_self c t
      exact ⟨c, (List.mem_filter.mp hm).1, (List.mem_filter.mp hm).2⟩
    rw [to_number_currency hl hne, hf, digitsToNat_natToDigits]
  · intro s h
    constructor
    · unfold to_number
      dsimp only
      rw [h]
    · unfold to_number
      dsimp only
      rw [h]
      exact fun he => PyFloat.noConfusion he

/-- Witness for C2: the currency string `$12,500` parses to 12500; the
non-numeric string `zz` becomes the absence marker. -/
theorem c2_to_number_witness :
    to_number (some "$12,500") = .fin 12500 ∧ to_number (some "zz") = .nan :=
  ⟨c2_to_number_currency_and_absence.2.1 12500 ['1', '2', ',', '5', '0', '0']
      (by decide) (by decide),
   (c2_to_number_currency_and_absence.2.2.2.2 "zz" (by decide)).1⟩

/-! ### C7: the priority classifier against its specification sentence -/

/-- Counterexample to C7 as stated: on the input "nan" (a NaN priority
cell), the code returns Unknown while the claim's rule pipeline (whose
placeholder list is only NONE/empty/ALL) returns Other. -/
theorem c7_counterexample :
    HW3Stretch.classify_priority "nan" = "Unknown" ∧ claimPriority "nan" = "Other" ∧
    HW3Stretch.classify_priority "nan" ≠ claimPriority "nan" := by decide

/-- C7 amended: the priority classifier of the stretch script equals the
claim's description once "NAN" is added to the placeholder list. -/
theorem c7_priority_classifier_amended (text : String) :
    HW3Stretch.classify_priority text = claimPriorityAmended text := by
  unfold HW3Stretch.classify_priority claimPriorityAmended
  dsimp only
  simp only [priorityRules, firstRuleMatch, List.any_cons, List.any_nil, Bool.or_false]

/-! ### Concrete worksheets for the end-to-end claims -/

/-- Counterexample to C3 as stated: the scenario-A worksheet yields exactly
one record, and its TotalScore is the absence marker rather than 88.0 - the
Total_Score column is only recognised when a header contains both "avg" and
"score", and the header "Score" does not contain "avg", so the positional
fallback (12, available only on sheets wider than 12 columns) is not taken
either. -/
theorem c3_counterexample :
    HW3Clean.clean_sheet "2022-23" gridA = .ok [recA] ∧ recA.total_score ≠ .fin 88 :=
  ⟨by decide, by decide⟩

/-- C3 amended: scenario A yields exactly one record with
AppType=SocialServices, PriorityCategory=HA, FundingRequest=12500.0,
FundingAward=10000.0 - and TotalScore absent (NaN), not 88.0. -/
theorem c3_scenario_a :
    HW3Clean.clean_sheet "2022-23" gridA = .ok [recA] ∧
    recA.app_type = "Social Services" ∧
    recA.priority_category = "HA" ∧
    recA.funding_request = .fin 12500 ∧
    recA.funding_award = .fin 10000 ∧
    recA.total_score = .nan :=
  ⟨by decide, by decide, by decide, by decide, by decide, by decide⟩

/-- Counterexample to C1 as stated: on a malformed one-row, one-column
worksheet whose sheet name forces the header search, the search evaluates
`df_temp.iloc[1]` on a one-row sheet and raises IndexError, so `clean_sheet`
does abort. -/
theorem c1_counterexample :
    HW3Clean.clean_sheet "2024-25" [[some "x"]] = .error .indexError := by decide

/-! ### Inversion lemmas for the extraction loop -/

namespace HW3Clean

lemma extractRecord_ok_shape {year : Option ℕ} {ci : ColIdx} {si : ScoreIdx}
    {row : List Cell} {out : Option RawRecord}
    (h : extractRecord year ci si row = .ok out) :
    ∃ org, iloc row (ci.corg : ℤ) = .ok org ∧
      ((is_summary_row org = true ∧ out = none) ∨
       (is_summary_row org = false ∧ ∃ rec, out = some rec ∧
          rec.year = year ∧ rec.organization = pyStrip (cellStr org) ∧
          (optTruthy ci.ctotal = false → rec.total_score = .nan))) := by
  unfold extractRecord at h
  cases h1 : iloc row (ci.corg : ℤ) with
  | error e => rw [h1] at h; cases h
  | ok org =>
  rw [h1] at h
  dsimp only at h
  refine ⟨org, rfl, ?_⟩
  by_cases hs : is_summary_row org = true
  · rw [if_pos hs] at h
    injection h with h2
    exact Or.inl ⟨hs, h2.symm⟩
  · rw [if_neg hs] at h
    cases h2 : iloc row (ci.cproject : ℤ) with
    | error e => rw [h2] at h; cases h
    | ok proj =>
    rw [h2] at h
    dsimp only at h
    cases h3 : iloc row (ci.ctype : ℤ) with
    | error e => rw [h3] at h; cases h
    | ok ty =>
    rw [h3] at h
    dsimp only at h
    cases h4 : iloc row (ci.cpriority : ℤ) with
    | error e => rw [h4] at h; cases h
    | ok pri =>
    rw [h4] at h
    dsimp only at h
    cases h5 : iloc row (ci.crequest : ℤ) with
    | error e => rw [h5] at h; cases h
    | ok req =>
    rw [h5] at h
    dsimp only at h
    cases h6 : iloc row ci.caward with
    | error e => rw [h6] at h; cases h
    | ok awd =>
    rw [h6] at h
    dsimp only at h
    cases h7 : (if optTruthy ci.ctotal then
        (iloc row ((ci.ctotal.getD 0 : ℕ) : ℤ)).map to_number
      else (.ok .nan : Except PyErr PyFloat)) with
    | error e => rw [h7] at h; cases h
    | ok tot =>
    rw [h7] at h
    dsimp only at h
    cases h8 : scoreField si.sImpact row with
    | error e => rw [h8] at h; cases h
    | ok imp =>
    rw [h8] at h
    dsimp only at h
    cases h9 : scoreField si.sPrinciples row with
    | error e => rw [h9] at h; cases h
    | ok prn =>
    rw [h9] at h
    dsimp only at h
    cases h10 : scoreField si.sCapacity row with
    | error e => rw [h10] at h; cases h
    | ok capv =>
    rw [h10] at h
    dsimp only at h
    cases h11 : scoreField si.sCollab row with
    | error e => rw [h11] at h; cases h
    | ok colv =>
    rw [h11] at h
    dsimp only at h
    injection h with h12
    refine Or.inr ⟨Bool.eq_false_iff.mpr hs, ?_⟩
    refine ⟨_, h12.symm, rfl, rfl, ?_⟩
    intro hf
    rw [hf] at h7
    simp only [Bool.false_eq_true, if_false] at h7
    injection h7 with h13
    exact h13.symm
end HW3Clean

namespace HW3Clean

lemma extractAll_mem_inv {year : Option ℕ} {ci : ColIdx} {si : ScoreIdx} :
    ∀ {rows : List (List Cell)} {recs : List RawRecord},
      extractAll year ci si rows = .ok recs → ∀ rec ∈ recs,
        ∃ row ∈ rows, extractRecord year ci si row = .ok (some rec) := by
  intro rows
  induction rows with
  | nil =>
    intro recs h rec hrec
    unfold extractAll at h
    injection h with h2
    subst h2
    cases hrec
  | cons r rs ih =>
    intro recs h rec hrec
    unfold extractAll at h
    cases h1 : extractRecord year ci si r with
    | error e => rw [h1] at h; cases h
    | ok out =>
    rw [h1] at h
    dsimp only at h
    cases h2 : extractAll year ci si rs with
    | error e => rw [h2] at h; cases h
    | ok rest =>
    rw [h2] at h
    dsimp only at h
    cases out with
    | some rec0 =>
      injection h with h3
      subst h3
      rcases List.mem_cons.mp hrec with he | hm
      · subst he
        exact ⟨r, List.mem_cons_self r rs, h1⟩
      · obtain ⟨row, hrow, hre⟩ := ih h2 rec hm
        exact ⟨row, List.mem_cons_of_mem r hrow, hre⟩
    | none =>
      injection h with h3
      subst h3
      obtain ⟨row, hrow, hre⟩ := ih h2 rec hrec
      exact ⟨row, List.mem_cons_of_mem r hrow, hre⟩

lemma extractAll_length {year : Option ℕ} {ci : ColIdx} {si : ScoreIdx} :
    ∀ {rows : List (List Cell)} {recs : List RawRecord},
      extractAll year ci si rows = .ok recs →
      recs.length = rows.countP (fun row =>
        match iloc row (ci.corg : ℤ) with
        | .ok org => !is_summary_row org
        | .error _ => false) := by
  intro rows
  induction rows with
  | nil =>
    intro recs h
    unfold extractAll at h
    injection h with h2
    subst h2
    rfl
  | cons r rs ih =>
    intro recs h
    unfold extractAll at h
    cases h1 : extractRecord year ci si r with
    | error e => rw [h1] at h; cases h
    | ok out =>
    rw [h1] at h
    dsimp only at h
    cases h2 : extractAll year ci si rs with
    | error e => rw [h2] at h; cases h
    | ok rest =>
    rw [h2] at h
    dsimp only at h
    obtain ⟨org, horg, hcase⟩ := extractRecord_ok_shape h1
    rw [List.countP_cons]
    rcases hcase with ⟨hsum, hout⟩ | ⟨hsum, rec0, hout, -, -, -⟩
    · subst hout
      injection h with h3
      subst h3
      rw [ih h2]
      rw [horg]
      simp [hsum]
    · subst hout
      injection h with h3
      subst h3
      rw [List.length_cons, ih h2]
      rw [horg]
      simp [hsum]

end HW3Clean

/-! ### C10: a Total_Score column at index 0 behaves as an absent column -/

/-- C10: in `clean_sheet`'s extraction loop, a Total_Score column resolved
to column index 0 is treated identically to an absent column - every emitted
record's Total_Score is the absence marker - because the Python code tests
the resolved index for truthiness (`if col_idx["Total_Score"]`), and `0` is
falsy, rather than comparing the index with `None`. -/
theorem c10_total_score_index_zero (year : Option ℕ) (ci : HW3Clean.ColIdx)
    (si : HW3Clean.ScoreIdx) (row : List Cell) (rec : HW3Clean.RawRecord)
    (h0 : ci.ctotal = some 0)
    (hok : HW3Clean.extractRecord year ci si row = .ok (some rec)) :
    rec.total_score = .nan := by
  obtain ⟨org, -, hcase⟩ := HW3Clean.extractRecord_ok_shape hok
  rcases hcase with ⟨-, hno⟩ | ⟨-, rec2, he, -, -, hts⟩
  · cases hno
  · injection he with he2
    subst he2
    apply hts
    rw [h0]
    decide

/-- Witness for C10: on a sheet whose first header is "Avg Score", the
Total_Score column resolves to index 0 and the emitted record's score is
the absence marker even though the cell holds 77. -/
theorem c10_total_score_index_zero_witness :
    (HW3Clean.colIdx cols10).ctotal = some 0 ∧
    HW3Clean.extractRecord (some 2024) (HW3Clean.colIdx cols10)
      ⟨none, none, none, none⟩ row10 = .ok (some rec10) ∧
    rec10.total_score = .nan :=
  ⟨by decide, by decide,
   c10_total_score_index_zero (some 2024) (HW3Clean.colIdx cols10)
     ⟨none, none, none, none⟩ row10 rec10 (by decide) (by decide)⟩

/-! ### C5: the summary-row filter -/

/-- C5 amended: a data row contributes a record to the extraction loop's
output if and only if its Organization cell is present (non-NaN) and its
text does not contain any of the keywords "total", "subtotal", "available",
"cap", "estimated" (case-insensitive substring match); rows whose
Organization cell is missing, or matches a keyword, are excluded.  (A
present-but-empty text is retained by the code, unlike the claim's
"empty/missing" wording.)  Stated as: the number of emitted records equals
the number of rows passing that criterion, and every emitted record comes
from a row passing it. -/
theorem c5_summary_row_filter (year : Option ℕ) (ci : HW3Clean.ColIdx)
    (si : HW3Clean.ScoreIdx) (rows : List (List Cell)) (recs : List HW3Clean.RawRecord)
    (h : HW3Clean.extractAll year ci si rows = .ok recs) :
    recs.length = rows.countP (fun row =>
      match HW3Clean.iloc row (ci.corg : ℤ) with
      | .ok (some s) => !(["total", "subtotal", "available", "cap", "estimated"].any
          (fun kw => strContains (strLower s) kw))
      | _ => false) ∧
    (∀ rec ∈ recs, ∃ row ∈ rows, ∃ s,
      HW3Clean.iloc row (ci.corg : ℤ) = .ok (some s) ∧
      HW3Clean.is_summary_row (some s) = false) := by
  constructor
  · rw [HW3Clean.extractAll_length h]
    congr 1
    funext row
    cases HW3Clean.iloc row (ci.corg : ℤ) with
    | error e => rfl
    | ok org =>
      cases org with
      | none => rfl
      | some s =>
        dsimp only
        simp only [HW3Clean.is_summary_row, List.any_cons, List.any_nil, Bool.or_false,
          Bool.or_assoc]
  · intro rec hrec
    obtain ⟨row, hrow, hre⟩ := HW3Clean.extractAll_mem_inv h rec hrec
    obtain ⟨org, horg, hcase⟩ := HW3Clean.extractRecord_ok_shape hre
    rcases hcase with ⟨-, hno⟩ | ⟨hsum, -, -, -, -, -⟩
    · cases hno
    · cases org with
      | none => simp [HW3Clean.is_summary_row] at hsum
      | some s => exact ⟨row, hrow, s, horg, hsum⟩

/-- Witness for C5: on `rows5` the loop keeps exactly the non-summary row. -/
theorem c5_summary_row_filter_witness :
    ([rec5] : List HW3Clean.RawRecord).length = rows5.countP (fun row =>
      match HW3Clean.iloc row ((HW3Clean.colIdx cols5).corg : ℤ) with
      | .ok (some s) => !(["total", "subtotal", "available", "cap", "estimated"].any
          (fun kw => strContains (strLower s) kw))
      | _ => false) ∧
    (∀ rec ∈ ([rec5] : List HW3Clean.RawRecord), ∃ row ∈ rows5, ∃ s,
      HW3Clean.iloc row ((HW3Clean.colIdx cols5).corg : ℤ) = .ok (some s) ∧
      HW3Clean.is_summary_row (some s) = false) :=
  c5_summary_row_filter (some 2024) (HW3Clean.colIdx cols5) ⟨none, none, none, none⟩
    rows5 [rec5] (by decide)

/-- Counterexample to C5 as stated: a row whose Organization cell is the
empty string is NOT excluded - `pd.isna("")` is false and the empty text
matches no keyword - although the claim says empty organizations are
excluded. -/
theorem c5_counterexample :
    HW3Clean.clean_sheet "2024-25" gridE = .ok [recE] ∧ recE.organization = "" :=
  ⟨by decide, by decide⟩

/-! ### C4: invariants of retained records -/

lemma yearAt_range {l : List Char} {y : ℕ} (h : HW3Clean.yearAt l = some y) :
    2000 ≤ y ∧ y ≤ 2099 := by
  unfold HW3Clean.yearAt at h
  split at h
  · split_ifs at h with hd
    injection h with h2
    subst h2
    simp only [isDig, decide_eq_true_eq] at hd
    unfold digitVal
    omega
  · cases h

lemma yearScan_range : ∀ {l : List Char} {y : ℕ},
    HW3Clean.yearScan l = some y → 2000 ≤ y ∧ y ≤ 2099 := by
  intro l
  induction l with
  | nil => intro y h; cases h
  | cons c rest ih =>
    intro y h
    unfold HW3Clean.yearScan at h
    cases hy : HW3Clean.yearAt (c :: rest) with
    | some y2 =>
      rw [hy] at h
      dsimp only at h
      injection h with h2
      subst h2
      exact yearAt_range hy
    | none =>
      rw [hy] at h
      dsimp only at h
      exact ih h

/-- C4 amended: every record retained by `clean_sheet` has AppType and
PriorityCategory drawn from their fixed enumerations (never null, with
unmatched input in Other/Unknown), an Organization that is the stripped
text of a present, non-summary cell (which can be the empty string), and a
Year that is either absent or a year 20xx extracted from the sheet name
(the code enforces no [2015, 2026] range). -/
theorem c4_record_invariants (name : String) (grid : Grid)
    (recs : List HW3Clean.Record) (r : HW3Clean.Record)
    (hok : HW3Clean.clean_sheet name grid = .ok recs) (hr : r ∈ recs) :
    r.app_type ∈ appTypeCats ∧
    r.priority_category ∈ priorityCats ∧
    (∃ s : String, r.organization = pyStrip s ∧ HW3Clean.is_summary_row (some s) = false) ∧
    (r.year = none ∨ ∃ y, r.year = some y ∧ 2000 ≤ y ∧ y ≤ 2099) := by
  unfold HW3Clean.clean_sheet at hok
  cases h1 : HW3Clean.headerRow name grid with
  | error e => rw [h1] at hok; cases hok
  | ok header =>
  rw [h1] at hok
  dsimp only at hok
  cases h2 : grid.get? header with
  | none => rw [h2] at hok; cases hok
  | some hrow =>
  rw [h2] at hok
  dsimp only at hok
  cases h3 : HW3Clean.extractAll (HW3Clean.extract_year name)
      (HW3Clean.colIdx (HW3Clean.headerNames hrow))
      (HW3Clean.scoreIdx name (HW3Clean.headerNames hrow))
      (HW3Clean.keptRows grid header) with
  | error e => rw [h3] at hok; cases hok
  | ok raws =>
  rw [h3] at hok
  dsimp only at hok
  unfold HW3Clean.finalize at hok
  by_cases hemp : raws.isEmpty = true
  · rw [if_pos hemp] at hok
    cases hok
  · rw [if_neg hemp] at hok
    injection hok with h4
    subst h4
    rw [List.mem_map] at hr
    obtain ⟨raw, hraw, hglue⟩ := hr
    obtain ⟨row, -, hre⟩ := HW3Clean.extractAll_mem_inv h3 raw hraw
    obtain ⟨org, -, hcase⟩ := HW3Clean.extractRecord_ok_shape hre
    rcases hcase with ⟨-, hno⟩ | ⟨hsum, rec2, he, hyear, horg2, -⟩
    · cases hno
    · injection he with he2
      subst he2
      subst hglue
      refine ⟨classify_app_type_mem _, classify_priority_mem _, ?_, ?_⟩
      · cases org with
        | none => simp [HW3Clean.is_summary_row] at hsum
        | some s => exact ⟨s, horg2, hsum⟩
      · show raw.year = none ∨ _
        rw [hyear]
        cases hy : HW3Clean.extract_year name with
        | none => exact Or.inl rfl
        | some y => exact Or.inr ⟨y, rfl, yearScan_range hy⟩

/-- Witness for C4 at the scenario-A worksheet. -/
theorem c4_record_invariants_witness :
    recA.app_type ∈ appTypeCats ∧
    recA.priority_category ∈ priorityCats ∧
    (∃ s : String, recA.organization = pyStrip s ∧
      HW3Clean.is_summary_row (some s) = false) ∧
    (recA.year = none ∨ ∃ y, recA.year = some y ∧ 2000 ≤ y ∧ y ≤ 2099) :=
  c4_record_invariants "2022-23" gridA [recA] recA (by decide) (by decide)

/-- Counterexample to C4 as stated: a retained record can have an empty
Organization (whitespace-only cell, stripped to "") and a Year outside
[2015, 2026] (sheet name "2030 data") - the code checks neither. -/
theorem c4_counterexample :
    HW3Clean.clean_sheet "2030 data" gridY = .ok [recY] ∧
    recY.organization = "" ∧ recY.year = some 2030 :=
  ⟨by decide, by decide, by decide⟩

/-! ### C1: conditions under which `clean_sheet` cannot raise -/

namespace HW3Clean

lemma firstIdxAux_lt {p : String → Bool} :
    ∀ {cols : List String} {k i : ℕ}, firstIdxAux p cols k = some i → i < k + cols.length := by
  intro cols
  induction cols with
  | nil => intro k i h; cases h
  | cons c cs ih =>
    intro k i h
    unfold firstIdxAux at h
    split_ifs at h with hp
    · injection h with h2
      subst h2
      simp only [List.length_cons]
      omega
    · have h3 := ih h
      simp only [List.length_cons]
      omega

lemma firstIdx_lt {p : String → Bool} {cols : List String} {i : ℕ}
    (h : firstIdx p cols = some i) : i < cols.length := by
  have h2 := firstIdxAux_lt h
  omega

lemma getD_firstIdx_lt {p : String → Bool} {cols : List String} {d : ℕ}
    (hd : d < cols.length) : (firstIdx p cols).getD d < cols.length := by
  cases hf : firstIdx p cols with
  | some j => simpa using firstIdx_lt hf
  | none => simpa using hd

lemma colIdx_ctotal_lt {cols : List String} {i : ℕ}
    (h : (colIdx cols).ctotal = some i) : i < cols.length := by
  have hc : (colIdx cols).ctotal =
      match firstIdx (fun c =>
          strContains (strLower c) "avg" && strContains (strLower c) "score") cols with
      | some j => some j
      | none => if cols.length > 12 then some 12 else none := rfl
  rw [hc] at h
  cases hf : firstIdx (fun c =>
      strContains (strLower c) "avg" && strContains (strLower c) "score") cols with
  | some j =>
    rw [hf] at h
    injection h with h2
    subst h2
    exact firstIdx_lt hf
  | none =>
    rw [hf] at h
    dsimp only at h
    split_ifs at h with hgt
    injection h with h2
    omega


lemma scoreIdxM1Aux_bound :
    ∀ (cols : List String) (i : ℕ) (acc : ScoreIdx) (n : ℕ),
      ScoreIdx.bound acc n → i + cols.length ≤ n →
      ScoreIdx.bound (scoreIdxM1Aux cols i acc) n := by
  intro cols
  induction cols with
  | nil =>
    intro i acc n hb hle
    simpa [scoreIdxM1Aux] using hb
  | cons c cs ih =>
    intro i acc n hb hle
    rw [List.length_cons] at hle
    have hi : i < n := by omega
    unfold scoreIdxM1Aux
    dsimp only
    apply ih _ _ _ ?_ (by omega)
    split_ifs <;>
      refine ⟨?_, ?_, ?_, ?_⟩ <;>
      dsimp only <;>
      first
        | (intro j hj; injection hj with h2; subst h2; exact hi)
        | (intro j hj; exact hb.1 j hj)
        | (intro j hj; exact hb.2.1 j hj)
        | (intro j hj; exact hb.2.2.1 j hj)
        | (intro j hj; exact hb.2.2.2 j hj)

lemma ptsCols_mem_lt :
    ∀ {cols : List String} {k : ℕ} {e : ℕ × String},
      e ∈ ptsCols cols k → e.1 < k + cols.length := by
  intro cols
  induction cols with
  | nil => intro k e he; cases he
  | cons c cs ih =>
    intro k e he
    unfold ptsCols at he
    split_ifs at he with hp
    · rcases List.mem_cons.mp he with he2 | he2
      · subst he2
        simp only [List.length_cons]
        omega
      · have h3 := ih he2
        simp only [List.length_cons]
        omega
    · have h3 := ih he
      simp only [List.length_cons]
      omega

lemma ptsSlot_lt {cols : List String} {k j : ℕ} {marker : String}
    (h : ptsSlot (ptsCols cols 0) k marker = some j) : j < cols.length := by
  unfold ptsSlot at h
  cases hg : (ptsCols cols 0).get? k with
  | none => rw [hg] at h; cases h
  | some p =>
    rw [hg] at h
    dsimp only at h
    split_ifs at h with hm
    injection h with h2
    subst h2
    have hmem : p ∈ ptsCols cols 0 := List.get?_mem hg
    have h3 := ptsCols_mem_lt hmem
    omega

lemma scoreIdx_bound (name : String) (cols : List String) :
    ScoreIdx.bound (scoreIdx name cols) cols.length := by
  have hm1 : ScoreIdx.bound (scoreIdxM1 cols) cols.length := by
    unfold scoreIdxM1
    exact scoreIdxM1Aux_bound cols 0 ⟨none, none, none, none⟩ cols.length
      ⟨(fun j h => nomatch h), (fun j h => nomatch h), (fun j h => nomatch h),
        (fun j h => nomatch h)⟩
      (by omega)
  unfold scoreIdx
  dsimp only
  split_ifs with hname hpts
  · refine ⟨?_, ?_, ?_, ?_⟩ <;> (intro j hj; dsimp only at hj; exact ptsSlot_lt hj)
  · exact hm1
  · exact hm1

end HW3Clean

namespace HW3Clean

lemma iloc_nat_ok {row : List Cell} {i : ℕ} (h : i < row.length) :
    iloc row (i : ℤ) = .ok (row.getD i none) := by
  unfold iloc
  dsimp only
  rw [if_neg (by omega : ¬ (i : ℤ) < 0)]
  rw [if_pos ⟨by omega, by exact_mod_cast h⟩]
  simp

lemma iloc_last_ok {row : List Cell} {c : ℕ} (hlen : row.length = c) (h1 : 1 ≤ c) :
    iloc row ((c : ℤ) - 1) = .ok (row.getD (c - 1) none) := by
  unfold iloc
  dsimp only
  rw [if_neg (by omega : ¬ ((c : ℤ) - 1 < 0))]
  rw [if_pos ⟨by omega, by rw [hlen]; omega⟩]
  have ht : ((c : ℤ) - 1).toNat = c - 1 := by omega
  rw [ht]

lemma scoreField_ok {idx : Option ℕ} {row : List Cell}
    (hb : ∀ j, idx = some j → j < row.length) :
    ∃ v, scoreField idx row = .ok v := by
  cases idx with
  | none => exact ⟨.nan, rfl⟩
  | some j =>
    unfold scoreField
    dsimp only
    rw [iloc_nat_ok (hb j rfl)]
    exact ⟨_, rfl⟩

lemma extractRecord_ok_of_bounds {year : Option ℕ} {ci : ColIdx} {si : ScoreIdx}
    {row : List Cell} {c : ℕ}
    (hlen : row.length = c) (h6 : 6 ≤ c)
    (hty : ci.ctype < c) (hpr : ci.cpriority < c) (hor : ci.corg < c)
    (hpj : ci.cproject < c) (hrq : ci.crequest < c) (haw : ci.caward = (c : ℤ) - 1)
    (htot : ∀ j, ci.ctotal = some j → j < c)
    (hsi : ScoreIdx.bound si c) :
    ∃ out, extractRecord year ci si row = .ok out ∧
      (out = none ↔ is_summary_row (row.getD ci.corg none) = true) := by
  have hlen' : ∀ {k : ℕ}, k < c → k < row.length := by intro k hk; omega
  unfold extractRecord
  rw [iloc_nat_ok (hlen' hor)]
  dsimp only
  by_cases hs : is_summary_row (row.getD ci.corg none) = true
  · rw [if_pos hs]
    exact ⟨none, rfl, iff_of_true rfl hs⟩
  · rw [if_neg hs]
    rw [iloc_nat_ok (hlen' hpj)]
    dsimp only
    rw [iloc_nat_ok (hlen' hty)]
    dsimp only
    rw [iloc_nat_ok (hlen' hpr)]
    dsimp only
    rw [iloc_nat_ok (hlen' hrq)]
    dsimp only
    rw [haw, iloc_last_ok hlen (by omega)]
    dsimp only
    obtain ⟨tv, htv⟩ : ∃ v, (if optTruthy ci.ctotal then
        (iloc row ((ci.ctotal.getD 0 : ℕ) : ℤ)).map to_number
      else (.ok .nan : Except PyErr PyFloat)) = .ok v := by
      cases hct : ci.ctotal with
      | none => exact ⟨.nan, rfl⟩
      | some j =>
        by_cases hj0 : j = 0
        · subst hj0
          exact ⟨.nan, rfl⟩
        · have htr : optTruthy (some j) = true := by simp [optTruthy, hj0]
          rw [htr, if_pos rfl]
          rw [show ((some j).getD 0 : ℕ) = j from rfl]
          rw [iloc_nat_ok (hlen' (htot j hct))]
          exact ⟨_, rfl⟩
    rw [htv]
    dsimp only
    obtain ⟨v1, hv1⟩ := scoreField_ok (fun j hj => hlen' (hsi.1 j hj))
    obtain ⟨v2, hv2⟩ := scoreField_ok (fun j hj => hlen' (hsi.2.1 j hj))
    obtain ⟨v3, hv3⟩ := scoreField_ok (fun j hj => hlen' (hsi.2.2.1 j hj))
    obtain ⟨v4, hv4⟩ := scoreField_ok (fun j hj => hlen' (hsi.2.2.2 j hj))
    rw [hv1]
    dsimp only
    rw [hv2]
    dsimp only
    rw [hv3]
    dsimp only
    rw [hv4]
    dsimp only
    exact ⟨some _, rfl, iff_of_false (fun hh => Option.noConfusion hh) hs⟩

lemma extractAll_ok_of_bounds {year : Option ℕ} {ci : ColIdx} {si : ScoreIdx} {c : ℕ}
    (h6 : 6 ≤ c)
    (hty : ci.ctype < c) (hpr : ci.cpriority < c) (hor : ci.corg < c)
    (hpj : ci.cproject < c) (hrq : ci.crequest < c) (haw : ci.caward = (c : ℤ) - 1)
    (htot : ∀ j, ci.ctotal = some j → j < c)
    (hsi : ScoreIdx.bound si c) :
    ∀ {rows : List (List Cell)}, (∀ row ∈ rows, row.length = c) →
    ∃ recs, extractAll year ci si rows = .ok recs ∧
      recs.length = rows.countP (fun row => !is_summary_row (row.getD ci.corg none)) := by
  intro rows
  induction rows with
  | nil => exact fun _ => ⟨[], rfl, rfl⟩
  | cons r rs ih =>
    intro hrows
    obtain ⟨out, hout, hiff⟩ := extractRecord_ok_of_bounds
      (hrows r (List.mem_cons_self r rs)) h6 hty hpr hor hpj hrq haw htot hsi
    obtain ⟨rest, hrest, hcount⟩ := ih (fun row hrow => hrows row (List.mem_cons_of_mem r hrow))
    unfold extractAll
    rw [hout, hrest]
    dsimp only
    cases out with
    | some rec =>
      refine ⟨rec :: rest, rfl, ?_⟩
      rw [List.countP_cons, List.length_cons, hcount]
      have hsum : is_summary_row (r.getD ci.corg none) = false := by
        rcases Bool.eq_false_or_eq_true (is_summary_row (r.getD ci.corg none)) with hh | hh
        · exact absurd (hiff.mpr hh) (by simp)
        · exact hh
      have hsum2 : is_summary_row ((getElem? r ci.corg).getD none) = false := by
        rw [← List.getD_eq_getElem?_getD]
        exact hsum
      simp [hsum2]
    | none =>
      refine ⟨rest, rfl, ?_⟩
      rw [List.countP_cons, hcount]
      have hsum : is_summary_row (r.getD ci.corg none) = true := hiff.mp rfl
      have hsum2 : is_summary_row ((getElem? r ci.corg).getD none) = true := by
        rw [← List.getD_eq_getElem?_getD]
        exact hsum
      simp [hsum2]


end HW3Clean

/-- C1 amended: `clean_sheet` aborts on no well-formed worksheet: whenever
the header row is determined without error and exists in the grid, every
retained data row has exactly the header's column count with at least six
columns, and at least one retained row is a real (non-summary) record, the
function returns normally.  (The guard is necessary: malformed grids do
raise - see the counterexample - via the header search past the end of the
sheet, positional fallback lookups beyond a short row, or the
`result["Type"]` KeyError on a sheet with zero retained records.) -/
theorem c1_clean_sheet_total_on_wellformed (name : String) (grid : Grid)
    (hok : HW3Clean.gridOK name grid = true) :
    ∃ recs, HW3Clean.clean_sheet name grid = .ok recs := by
  unfold HW3Clean.gridOK at hok
  cases h1 : HW3Clean.headerRow name grid with
  | error e => rw [h1] at hok; cases hok
  | ok header =>
  rw [h1] at hok
  dsimp only at hok
  cases h2 : grid.get? header with
  | none => rw [h2] at hok; cases hok
  | some hrow =>
  rw [h2] at hok
  dsimp only at hok
  rw [Bool.and_eq_true, Bool.and_eq_true] at hok
  obtain ⟨⟨h6b, hall⟩, hany⟩ := hok
  rw [decide_eq_true_eq] at h6b
  have hall' : ∀ row ∈ HW3Clean.keptRows grid header,
      row.length = (HW3Clean.headerNames hrow).length := by
    intro row hrow2
    have hx := (List.all_eq_true.mp hall) row hrow2
    simpa using hx
  have hty : (HW3Clean.colIdx (HW3Clean.headerNames hrow)).ctype <
      (HW3Clean.headerNames hrow).length := HW3Clean.getD_firstIdx_lt (by omega)
  have hpr : (HW3Clean.colIdx (HW3Clean.headerNames hrow)).cpriority <
      (HW3Clean.headerNames hrow).length := HW3Clean.getD_firstIdx_lt (by omega)
  have hor : (HW3Clean.colIdx (HW3Clean.headerNames hrow)).corg <
      (HW3Clean.headerNames hrow).length := HW3Clean.getD_firstIdx_lt (by omega)
  have hpj : (HW3Clean.colIdx (HW3Clean.headerNames hrow)).cproject <
      (HW3Clean.headerNames hrow).length := HW3Clean.getD_firstIdx_lt (by omega)
  have hrq : (HW3Clean.colIdx (HW3Clean.headerNames hrow)).crequest <
      (HW3Clean.headerNames hrow).length := HW3Clean.getD_firstIdx_lt (by omega)
  obtain ⟨recs, hrecs, hcount⟩ := @HW3Clean.extractAll_ok_of_bounds
    (HW3Clean.extract_year name)
    (HW3Clean.colIdx (HW3Clean.headerNames hrow))
    (HW3Clean.scoreIdx name (HW3Clean.headerNames hrow))
    ((HW3Clean.headerNames hrow).length)
    h6b hty hpr hor hpj hrq rfl
    (fun j hj => HW3Clean.colIdx_ctotal_lt hj)
    (HW3Clean.scoreIdx_bound name (HW3Clean.headerNames hrow))
    (HW3Clean.keptRows grid header)
    hall'
  unfold HW3Clean.clean_sheet
  rw [h1]
  dsimp only
  rw [h2]
  dsimp only
  rw [hrecs]
  dsimp only
  unfold HW3Clean.finalize
  rw [if_neg ?nonempty]
  · exact ⟨_, rfl⟩
  case nonempty =>
    intro hemp
    rw [List.isEmpty_iff] at hemp
    rw [hemp] at hcount
    rw [List.any_eq_true] at hany
    obtain ⟨row, hrow2, hpred⟩ := hany
    have hpos : 0 < List.countP (fun row =>
        !HW3Clean.is_summary_row
          (row.getD (HW3Clean.colIdx (HW3Clean.headerNames hrow)).corg none))
        (HW3Clean.keptRows grid header) :=
      List.countP_pos_iff.mpr ⟨row, hrow2, hpred⟩
    rw [List.length_nil] at hcount
    omega

/-- Witness for C1: the scenario-A worksheet passes the well-formedness
test, and on it `clean_sheet` returns normally. -/
theorem c1_clean_sheet_total_witness :
    ∃ recs, HW3Clean.clean_sheet "2022-23" gridA = .ok recs :=
  c1_clean_sheet_total_on_wellformed "2022-23" gridA (by decide)
